import Mathlib

/-!
Verification of the mass-balance calculator in src/App.py.

The program computes, for a fruit-pulp concentration problem, the final
pulp mass M3 and the sugar mass M2 to add, from an initial mass M1 and
initial/final solids concentrations X1, X3 (percentages).

Embedding choices:
- Python floats are embedded as rationals (ℚ); the arithmetic of the
  program is a single closed-form expression, so exact rational arithmetic
  is the intended mathematical content and exact equalities subsume the
  floating-point tolerances mentioned by the spec.
- Streamlit UI calls performed by the code (st.error, st.warning, the
  success-path display block) are embedded as an explicit effect trace,
  so purity and which-branch-emits-what are provable statements.
- The Python return value (None, None) on the error path is embedded as
  `none : Option (ℚ × ℚ)`; a successful pair (m3, m2) as `some (m3, m2)`.
-/

/-- UI side effects (Streamlit calls) observable in the embedded code.
`stError` embeds `st.error(msg)`, `stWarning` embeds `st.warning(msg)`,
and `stSuccessDisplay` stands for the whole success-path display block
(st.success, metrics, expander) of the submit handler, whose string
formatting is presentation-only and not modelled further. -/
inductive StCall where
  | stError (msg : String)
  | stWarning (msg : String)
  | stSuccessDisplay
deriving DecidableEq

/-- Message of the `st.error` call at src/App.py line 22. -/
def invalidConcentrationMsg : String :=
  "Error: La concentración final no puede ser 100% porque la pulpa inicial contiene agua."

/-- Message of the `st.warning` call at src/App.py line 83. -/
def domainRuleMsg : String :=
  "La concentración final deseada debe ser mayor que la concentración inicial para agregar azúcar."

/-- Embedding of `calculate_mass_balance` (src/App.py lines 3-35).
Returns the value the Python function returns together with the list of
Streamlit calls it performs: on the guard `final_water_fraction == 0` it
calls `st.error` and returns (None, None) (embedded as `none`); otherwise
it performs no UI call and returns the computed pair. -/
def calculate_mass_balance (initial_mass initial_concentration final_concentration : ℚ) :
    Option (ℚ × ℚ) × List StCall :=
  let initial_water_fraction := 1 - initial_concentration / 100
  let final_water_fraction := 1 - final_concentration / 100
  if final_water_fraction = 0 then
    (none, [StCall.stError invalidConcentrationMsg])
  else
    let final_mass := (initial_mass * initial_water_fraction) / final_water_fraction
    let sugar_mass_to_add := final_mass - initial_mass
    (some (final_mass, sugar_mass_to_add), [])

/-- Result of one submit of the form (src/App.py lines 81-110):
the numeric pair displayed (if any), the Streamlit calls made, and
whether `calculate_mass_balance` was invoked. -/
structure SubmitTrace where
  displayed : Option (ℚ × ℚ)
  effects : List StCall
  computeCalled : Bool
deriving DecidableEq

/-- Embedding of the submit handler in col2 (src/App.py lines 81-110):
if `x3_input <= x1_input` it emits the domain-rule warning and never calls
`calculate_mass_balance`; otherwise it calls it and, when the result is
not None, displays the success block. -/
def submit_handler (m1_input x1_input x3_input : ℚ) : SubmitTrace :=
  if x3_input ≤ x1_input then
    { displayed := none
      effects := [StCall.stWarning domainRuleMsg]
      computeCalled := false }
  else
    let r := calculate_mass_balance m1_input x1_input x3_input
    match r.fst with
    | some (m3, m2) =>
      { displayed := some (m3, m2)
        effects := r.snd ++ [StCall.stSuccessDisplay]
        computeCalled := true }
    | none =>
      { displayed := none
        effects := r.snd
        computeCalled := true }

/-- Lower bound of the mass widget `m1_input` (src/App.py line 55). -/
def m1_min : ℚ := 0

/-- Lower bound of the concentration widgets `x1_input` and `x3_input`
(src/App.py lines 62, 70). -/
def conc_min : ℚ := 0

/-- Upper bound of the concentration widgets `x1_input` and `x3_input`
(src/App.py lines 63, 71). -/
def conc_max : ℚ := 99.9

/-- The division guard of `calculate_mass_balance` fires exactly when the
final concentration is 100 (over exact arithmetic, 1 - x3/100 = 0 iff
x3 = 100). -/
theorem final_water_fraction_eq_zero_iff (x3 : ℚ) :
    (1 - x3 / 100 = 0) ↔ x3 = 100 := by
  constructor
  · intro h
    have : x3 / 100 = 1 := by linarith
    field_simp at this
    exact this
  · intro h
    subst h
    norm_num

/-- C1: for every input triple with finalConcentration ≠ 100,
`calculate_mass_balance` returns
finalMass = initialMass * (1 - initialConcentration/100) / (1 - finalConcentration/100)
and sugarMass = finalMass - initialMass. -/
theorem c1_compute_formula (m1 x1 x3 : ℚ) (h : x3 ≠ 100) :
    (calculate_mass_balance m1 x1 x3).fst =
      some (m1 * (1 - x1 / 100) / (1 - x3 / 100),
            m1 * (1 - x1 / 100) / (1 - x3 / 100) - m1) := by
  have hy : (1 : ℚ) - x3 / 100 ≠ 0 := by
    intro h0
    exact h ((final_water_fraction_eq_zero_iff x3).mp h0)
  simp [calculate_mass_balance, hy]

/-- C1 witness: at (50, 7, 10) the hypothesis 10 ≠ 100 holds and the
formula gives the returned pair. -/
theorem c1_compute_formula_witness :
    (calculate_mass_balance 50 7 10).fst =
      some (50 * (1 - 7 / 100) / (1 - 10 / 100),
            50 * (1 - 7 / 100) / (1 - 10 / 100) - 50) :=
  c1_compute_formula 50 7 10 (by norm_num)

/-- C2: for every input with finalConcentration = 100 (equivalently, the
final water fraction is 0), `calculate_mass_balance` emits the
InvalidConcentration error and returns no numeric result (the Python
(None, None), embedded as `none`). -/
theorem c2_invalid_concentration (m1 x1 x3 : ℚ) (h : x3 = 100) :
    calculate_mass_balance m1 x1 x3 =
      (none, [StCall.stError invalidConcentrationMsg]) := by
  subst h
  simp [calculate_mass_balance]

/-- C2 witness: at (50, 7, 100) the hypothesis holds and the result is the
error outcome with no numeric pair. -/
theorem c2_invalid_concentration_witness :
    calculate_mass_balance 50 7 100 =
      (none, [StCall.stError invalidConcentrationMsg]) :=
  c2_invalid_concentration 50 7 100 rfl

/-- C3: for every successful invocation of `calculate_mass_balance`, the
total-mass invariant initialMass + sugarMass = finalMass holds (exactly,
over the rational embedding). -/
theorem c3_total_mass_invariant (m1 x1 x3 m3 m2 : ℚ)
    (h : (calculate_mass_balance m1 x1 x3).fst = some (m3, m2)) :
    m1 + m2 = m3 := by
  by_cases hy : (1 : ℚ) - x3 / 100 = 0
  · simp [calculate_mass_balance, hy] at h
  · simp [calculate_mass_balance, hy] at h
    obtain ⟨h3, h2⟩ := h
    rw [← h3, ← h2]
    ring

/-- C3 witness: at (50, 7, 10) the invocation succeeds and
50 + sugarMass = finalMass. -/
theorem c3_total_mass_invariant_witness :
    (50 : ℚ) + 5 / 3 = 155 / 3 :=
  c3_total_mass_invariant 50 7 10 (155 / 3) (5 / 3) (by
    norm_num [calculate_mass_balance])

/-- C4: for every successful invocation of `calculate_mass_balance`, water
mass is conserved: initialMass * (1 - initialConcentration/100) equals
finalMass * (1 - finalConcentration/100). Over the rational embedding the
equality is exact, so in particular it holds within the tolerance 1e-9
stated by the spec. -/
theorem c4_water_mass_invariant (m1 x1 x3 m3 m2 : ℚ)
    (h : (calculate_mass_balance m1 x1 x3).fst = some (m3, m2)) :
    m1 * (1 - x1 / 100) = m3 * (1 - x3 / 100) ∧
      |m1 * (1 - x1 / 100) - m3 * (1 - x3 / 100)| ≤ 1 / 1000000000 := by
  by_cases hy : (1 : ℚ) - x3 / 100 = 0
  · simp [calculate_mass_balance, hy] at h
  · simp [calculate_mass_balance, hy] at h
    obtain ⟨h3, _⟩ := h
    have heq : m1 * (1 - x1 / 100) = m3 * (1 - x3 / 100) := by
      rw [← h3]
      exact (div_mul_cancel₀ _ hy).symm
    refine ⟨heq, ?_⟩
    rw [heq]
    simp

/-- C4 witness: at (50, 7, 10) the invocation succeeds and the water-mass
invariant holds for the returned final mass. -/
theorem c4_water_mass_invariant_witness :
    (50 : ℚ) * (1 - 7 / 100) = 155 / 3 * (1 - 10 / 100) ∧
      |(50 : ℚ) * (1 - 7 / 100) - 155 / 3 * (1 - 10 / 100)| ≤ 1 / 1000000000 :=
  c4_water_mass_invariant 50 7 10 (155 / 3) (5 / 3) (by
    norm_num [calculate_mass_balance])

/-- C5 counterexample: the input (initialMass, initialConcentration,
finalConcentration) = (0, 0, 50) satisfies every hypothesis of the claim
(initialMass ≥ 0, concentrations in [0, 100), initialConcentration <
finalConcentration < 100), yet `calculate_mass_balance` returns
finalMass = 0 and sugarMass = 0, so neither finalMass > initialMass nor
sugarMass > 0 holds. -/
theorem c5_counterexample :
    (0 : ℚ) ≤ 0 ∧ (0 : ℚ) ≤ 0 ∧ (0 : ℚ) < 100 ∧ (0 : ℚ) ≤ 50 ∧ (50 : ℚ) < 100 ∧
      (0 : ℚ) < 50 ∧
      (calculate_mass_balance 0 0 50).fst = some (0, 0) ∧
      ¬ (0 : ℚ) < 0 := by
  norm_num [calculate_mass_balance]

/-- C5 amended: for all valid inputs with initialMass > 0 (strictly
positive, not merely ≥ 0) and initialConcentration < finalConcentration
< 100, `calculate_mass_balance` returns finalMass > initialMass and
sugarMass > 0. -/
theorem c5_amended_strict_growth (m1 x1 x3 : ℚ)
    (hm : 0 < m1) (hx1 : 0 ≤ x1) (hlt : x1 < x3) (hx3 : x3 < 100) :
    ∃ m3 m2, (calculate_mass_balance m1 x1 x3).fst = some (m3, m2) ∧
      m1 < m3 ∧ 0 < m2 := by
  have hy3 : (0 : ℚ) < 1 - x3 / 100 := by linarith
  have hy : (1 : ℚ) - x3 / 100 ≠ 0 := ne_of_gt hy3
  refine ⟨m1 * (1 - x1 / 100) / (1 - x3 / 100),
          m1 * (1 - x1 / 100) / (1 - x3 / 100) - m1, ?_, ?_, ?_⟩
  · simp [calculate_mass_balance, hy]
  · rw [lt_div_iff hy3]
    have : (1 : ℚ) - x3 / 100 < 1 - x1 / 100 := by linarith
    calc m1 * (1 - x3 / 100) < m1 * (1 - x1 / 100) :=
          mul_lt_mul_of_pos_left this hm
      _ = m1 * (1 - x1 / 100) := rfl
  · have h1 : m1 < m1 * (1 - x1 / 100) / (1 - x3 / 100) := by
      rw [lt_div_iff hy3]
      exact mul_lt_mul_of_pos_left (by linarith) hm
    linarith

/-- C5 witness: at (50, 7, 10) all hypotheses of the amended claim hold
and the conclusion follows. -/
theorem c5_amended_strict_growth_witness :
    ∃ m3 m2, (calculate_mass_balance 50 7 10).fst = some (m3, m2) ∧
      (50 : ℚ) < m3 ∧ 0 < m2 :=
  c5_amended_strict_growth 50 7 10 (by norm_num) (by norm_num)
    (by norm_num) (by norm_num)

/-- C6: whenever finalConcentration ≤ initialConcentration, the submit
handler emits the domain-rule warning, displays no numeric result, and
never invokes `calculate_mass_balance`. -/
theorem c6_domain_rule_rejection (m1 x1 x3 : ℚ) (h : x3 ≤ x1) :
    submit_handler m1 x1 x3 =
      { displayed := none
        effects := [StCall.stWarning domainRuleMsg]
        computeCalled := false } := by
  simp [submit_handler, h]

/-- C6 witness: at (10, 7, 7) the handler warns, shows nothing, and does
not call the formula. -/
theorem c6_domain_rule_rejection_witness :
    submit_handler 10 7 7 =
      { displayed := none
        effects := [StCall.stWarning domainRuleMsg]
        computeCalled := false } :=
  c6_domain_rule_rejection 10 7 7 (by norm_num)

/-- C7: for initialMass = 0 and any valid concentration pair
(0 ≤ initialConcentration < 100, 0 ≤ finalConcentration < 100),
`calculate_mass_balance` returns finalMass = 0 and sugarMass = 0. -/
theorem c7_zero_initial_mass (x1 x3 : ℚ)
    (hx1l : 0 ≤ x1) (hx1u : x1 < 100) (hx3l : 0 ≤ x3) (hx3u : x3 < 100) :
    (calculate_mass_balance 0 x1 x3).fst = some (0, 0) := by
  have hy : (1 : ℚ) - x3 / 100 ≠ 0 := ne_of_gt (by linarith)
  simp [calculate_mass_balance, hy]

/-- C7 witness: at concentrations (7, 10), initialMass = 0 gives
finalMass = 0 and sugarMass = 0. -/
theorem c7_zero_initial_mass_witness :
    (calculate_mass_balance 0 7 10).fst = some (0, 0) :=
  c7_zero_initial_mass 7 10 (by norm_num) (by norm_num) (by norm_num)
    (by norm_num)

/-- C8 counterexample: the input (-5, 0, 50) violates the precondition
initialMass ≥ 0, yet `calculate_mass_balance` returns the numeric result
(finalMass, sugarMass) = (-10, -5) instead of failing with an error
outcome: the function does not guard initialMass ≥ 0. -/
theorem c8_counterexample :
    (-5 : ℚ) < 0 ∧
      (calculate_mass_balance (-5) 0 50).fst = some (-10, -5) := by
  norm_num [calculate_mass_balance]

/-- C8 amended: `calculate_mass_balance` guards only the
finalConcentration = 100 condition: it fails (returns no numeric result)
exactly when finalConcentration = 100, and for every other input —
including inputs violating initialMass ≥ 0 or the concentration ranges —
it returns a numeric result. -/
theorem c8_amended_only_division_guard (m1 x1 x3 : ℚ) :
    (calculate_mass_balance m1 x1 x3).fst = none ↔ x3 = 100 := by
  by_cases hy : (1 : ℚ) - x3 / 100 = 0
  · simp [calculate_mass_balance, hy,
      (final_water_fraction_eq_zero_iff x3).mp hy]
  · simp [calculate_mass_balance, hy]
    intro h
    exact hy ((final_water_fraction_eq_zero_iff x3).mpr h)

/-- C9 counterexample: on the error path the function is not
side-effect-free: at (50, 7, 100) `calculate_mass_balance` performs the
Streamlit call `st.error(...)`, a nonempty effect trace. -/
theorem c9_counterexample :
    (calculate_mass_balance 50 7 100).snd =
        [StCall.stError invalidConcentrationMsg] ∧
      (calculate_mass_balance 50 7 100).snd ≠ [] := by
  constructor
  · norm_num [calculate_mass_balance]
  · norm_num [calculate_mass_balance]

/-- C9 amended: `calculate_mass_balance` is deterministic and uses no
global state; its success path performs no side effects, but its error
path emits exactly one UI call, `st.error`. Its effect trace is therefore
[st.error message] when finalConcentration = 100 and empty otherwise. -/
theorem c9_amended_effects (m1 x1 x3 : ℚ) :
    (calculate_mass_balance m1 x1 x3).snd =
      if x3 = 100 then [StCall.stError invalidConcentrationMsg] else [] := by
  by_cases hy : (1 : ℚ) - x3 / 100 = 0
  · simp [calculate_mass_balance, hy,
      (final_water_fraction_eq_zero_iff x3).mp hy]
  · have hx : x3 ≠ 100 := fun h =>
      hy ((final_water_fraction_eq_zero_iff x3).mpr h)
    simp [calculate_mass_balance, hy, hx]

/-- C10: the form bounds both concentration fields to [0.0, 99.9], so for
every value reachable through the form the division guard
final_water_fraction = 0 never fires: `calculate_mass_balance` returns a
numeric result, and no submit ever emits the InvalidConcentration
st.error call. -/
theorem c10_ui_error_unreachable (m1 x1 x3 : ℚ)
    (hm : m1_min ≤ m1)
    (hx1l : conc_min ≤ x1) (hx1u : x1 ≤ conc_max)
    (hx3l : conc_min ≤ x3) (hx3u : x3 ≤ conc_max) :
    1 - x3 / 100 ≠ 0 ∧
      (calculate_mass_balance m1 x1 x3).fst ≠ none ∧
      StCall.stError invalidConcentrationMsg ∉ (submit_handler m1 x1 x3).effects := by
  have hx3u' : x3 ≤ 99.9 := hx3u
  have hy : (1 : ℚ) - x3 / 100 ≠ 0 := by
    apply ne_of_gt
    rw [show (99.9 : ℚ) = 999 / 10 from by norm_num] at hx3u'
    linarith
  refine ⟨hy, ?_, ?_⟩
  · simp [calculate_mass_balance, hy]
  · by_cases hle : x3 ≤ x1
    · simp [submit_handler, hle, domainRuleMsg]
    · simp only [submit_handler, if_neg hle]
      simp [calculate_mass_balance, hy]

/-- C10 witness: the default form values (50, 7, 10) lie in the widget
ranges, the guard does not fire, and no error call is emitted. -/
theorem c10_ui_error_unreachable_witness :
    (1 : ℚ) - 10 / 100 ≠ 0 ∧
      (calculate_mass_balance 50 7 10).fst ≠ none ∧
      StCall.stError invalidConcentrationMsg ∉ (submit_handler 50 7 10).effects :=
  c10_ui_error_unreachable 50 7 10 (by norm_num [m1_min])
    (by norm_num [conc_min]) (by norm_num [conc_max])
    (by norm_num [conc_min]) (by norm_num [conc_max])
